import Mathlib

/-
Verification development for the pcp rendezvous/discovery core.

Shallow embedding of the relevant Go source:
  * pkg/mdns/mdns.go      (package mdns):    Model.HandlePeerFound, onlyPrivate
  * pkg/mdns/mdns.go      (package receive): Node.HandlePeerFound, Node.watchDiscoverErrors,
                                             PeerState enumeration
  * pkg/dht/protocol.go   (package dht):     protocol.bootstrap
  * pkg/dht/discoverer.go (package dht):     Discoverer.Discover, lookupTimeout

Modelling conventions, used throughout:
  * peer IDs are Nat; multiaddresses carry only the verdict of the external
    manet.IsPrivateAddr predicate (the address substrate is out of scope);
  * non-deterministic external calls (host.Connect, StartKeyExchange,
    Network().Connectedness, WaitForDirectConn, the bootstrap connection
    results, the DHT lookup results) are inputs supplied by an environment
    record, one outcome per call site;
  * durations are measured in seconds (Go: 10 * time.Second becomes 10);
  * the concurrent entry point Node.HandlePeerFound is embedded twice at two
    granularities over the same shared-state type: once as a straight-line
    function (one whole invocation as a unit, for serialized executions) and
    once as a small-step machine whose atomic steps are exactly the shared
    memory accesses of the Go code, interleaved by an explicit schedule.
-/

set_option autoImplicit false

/-- Peer state enumeration from package receive (`type PeerState uint8`). -/
inductive PeerState where
  | NotConnected
  | Connecting
  | Connected
  | FailedConnecting
  | FailedAuthentication
deriving DecidableEq, Repr

/-- Session state of the node (pcpnode states referenced by package receive:
Idle, Roaming, Connected). -/
inductive SessionState where
  | Idle
  | Roaming
  | Connected
deriving DecidableEq, Repr

/-- Worker stage enumeration. The dht package constants referenced in
pkg/dht/discoverer.go are StageIdle, StageBootstrapping,
StageWaitingForPublicAddrs, StageLookup, StageRetrying, StageStopped,
StageError.  The receive package compares mdns and dht stages against the
same constant names; one shared enumeration is used for both. -/
inductive Stage where
  | Idle
  | Bootstrapping
  | WaitingForPublicAddrs
  | Lookup
  | Retrying
  | Stopped
  | Error
deriving DecidableEq, Repr, Fintype

/-- Modelled from the spec: `Stage.IsTermination` is referenced by
watchDiscoverErrors in package receive but its body is not under src/.
Spec section 3: a stage is terminal iff it is Stopped or Error. -/
def Stage.IsTermination : Stage → Bool
  | Stage.Stopped => true
  | Stage.Error => true
  | _ => false

/-- A multiaddress, reduced to the verdict of the external
manet.IsPrivateAddr predicate (the only property of an address that the
embedded code inspects). -/
structure Multiaddr where
  isPrivate : Bool
deriving DecidableEq, Repr

/-- peer.AddrInfo: a peer record of peer-ID and advisory address set. -/
structure AddrInfo where
  id : Nat
  addrs : List Multiaddr
deriving DecidableEq, Repr

/-- onlyPrivate from package mdns: filter out addresses that are public -
only allow private ones. -/
def onlyPrivate (addrs : List Multiaddr) : List Multiaddr :=
  addrs.filter (fun a => a.isPrivate)

/-- (Model).HandlePeerFound from package mdns.  Takes the local host ID
(`m.host.ID()`) and the discovered record; returns the message sent to
`m.sender` (`some` of the record with its address set replaced by the
filtered one), or `none` when the record is dropped. -/
def Mdns.HandlePeerFound (selfID : Nat) (pi : AddrInfo) : Option AddrInfo :=
  if pi.id = selfID then none
  else
    let filtered := onlyPrivate pi.addrs
    if filtered.length = 0 then none
    else some { pi with addrs := filtered }

/-- Modelled from the spec: the constant ConnThreshold is referenced by
protocol.bootstrap in pkg/dht/protocol.go but its definition is not under
src/.  Spec section 9 and scenario S2 use the value 3. -/
def ConnThreshold : Nat := 3

/-- Result of protocol.bootstrap.  Per-peer bootstrap errors are opaque
(Nat). errThreshold is ErrConnThresholdNotReached carrying BootstrapErrs;
errCanceled is the context error returned by ServiceContext().Err(). -/
inductive BootstrapOutcome where
  | ok
  | errNoPeers
  | errThreshold (errs : List Nat)
  | errCanceled
deriving DecidableEq, Repr

/-- (protocol).bootstrap from pkg/dht/protocol.go.  `connectResults` has one
entry per configured bootstrap peer: `none` for a successful Connect and
`some e` for a failed one (collected through the error channel);
`ctxCancelled` is whether ServiceContext().Done() fires at the final check.
The code returns the context error only inside the below-threshold branch;
otherwise it returns ErrConnThresholdNotReached with all per-peer errors,
or nil on success. -/
def Dht.bootstrap (ctxCancelled : Bool) (connectResults : List (Option Nat))
    (thr : Nat) : BootstrapOutcome :=
  if connectResults.length = 0 then BootstrapOutcome.errNoPeers
  else if connectResults.length - (connectResults.filterMap id).length < thr then
    (if ctxCancelled then BootstrapOutcome.errCanceled
     else BootstrapOutcome.errThreshold (connectResults.filterMap id))
  else BootstrapOutcome.ok

/-- Outcome of (Discoverer).waitPublicAddresses: nil, the context error, or
a subscription failure. -/
inductive WaitOutcome where
  | ok
  | canceled
  | err
deriving DecidableEq, Repr

/-- Events recorded by the DHT discoverer model: a provider lookup issued
with its timeout (in seconds), and a `go d.notifee.HandlePeerFound(pi)`
spawn (asynchronous, fire-and-forget dispatch of a found peer). -/
inductive DEvent where
  | lookupStarted (timeoutSecs : Nat)
  | spawnNotify (pi : AddrInfo)
deriving DecidableEq, Repr

/-- lookupTimeout from pkg/dht/discoverer.go: `10 * time.Second`, in
seconds. -/
def lookupTimeout : Nat := 10

/-- One iteration of the Discover lookup loop as seen by the environment:
whether ContentID succeeded, the peers streamed by FindProvidersAsync
within the timeout window, and whether SigShutdown has fired at the
select following the lookup. -/
structure LookupIter where
  contentIDOk : Bool
  peers : List AddrInfo
  shutdownAfter : Bool
deriving DecidableEq, Repr

/-- The events generated by the body of one Discover loop iteration: the
timeout-bounded provider lookup, then one asynchronous HandlePeerFound
spawn per returned peer whose address set is non-empty
(`if len(pi.Addrs) > 0 { go d.notifee.HandlePeerFound(pi) }`). -/
def Dht.lookupIteration (it : LookupIter) : List DEvent :=
  DEvent.lookupStarted lookupTimeout ::
    (it.peers.filter (fun pi => decide (0 < pi.addrs.length))).map DEvent.spawnNotify

/-- The Discover lookup loop (the `for` loop of (Discoverer).Discover): per
iteration, a ContentID failure sets StageError and returns; otherwise the
lookup runs, then the shutdown signal sets StageStopped and returns, or
the stage is set to StageRetrying and the loop repeats.  Returns the list
of stage values stored by the loop and the events of the run.  An empty
iteration list truncates the run (the loop itself never exits otherwise). -/
def Dht.discoverLoop : List LookupIter → List Stage × List DEvent
  | [] => ([], [])
  | it :: rest =>
    if it.contentIDOk = false then ([Stage.Error], [])
    else if it.shutdownAfter then ([Stage.Stopped], Dht.lookupIteration it)
    else
      let r := Dht.discoverLoop rest
      (Stage.Retrying :: r.1, Dht.lookupIteration it ++ r.2)

/-- Environment of one (Discoverer).Discover run: whether ServiceStarted
succeeds, the bootstrap outcome, the waitPublicAddresses outcome, and the
lookup-loop iterations. -/
structure DiscoverEnv where
  serviceStartOk : Bool
  bootstrapOutcome : BootstrapOutcome
  waitOutcome : WaitOutcome
  iters : List LookupIter
deriving DecidableEq, Repr

/-- (Discoverer).Discover from pkg/dht/discoverer.go.  Returns the ordered
list of stage values stored over the run (the initial state is StageIdle;
setStage/setError append) together with the recorded events.
`errors.Is(err, context.Canceled)` after bootstrap or waitPublicAddresses
stores StageStopped; any other error stores StageError. -/
def Dht.Discover (env : DiscoverEnv) : List Stage × List DEvent :=
  if env.serviceStartOk = false then ([Stage.Idle, Stage.Error], [])
  else
    match env.bootstrapOutcome with
    | BootstrapOutcome.errCanceled =>
        ([Stage.Idle, Stage.Bootstrapping, Stage.Stopped], [])
    | BootstrapOutcome.ok =>
        match env.waitOutcome with
        | WaitOutcome.canceled =>
            ([Stage.Idle, Stage.Bootstrapping, Stage.WaitingForPublicAddrs,
              Stage.Stopped], [])
        | WaitOutcome.err =>
            ([Stage.Idle, Stage.Bootstrapping, Stage.WaitingForPublicAddrs,
              Stage.Error], [])
        | WaitOutcome.ok =>
            ([Stage.Idle, Stage.Bootstrapping, Stage.WaitingForPublicAddrs,
              Stage.Lookup] ++ (Dht.discoverLoop env.iters).1,
             (Dht.discoverLoop env.iters).2)
    | _ => ([Stage.Idle, Stage.Bootstrapping, Stage.Error], [])

/-- A stage trace respects an edge relation when every consecutive pair is
either a stutter (same value stored again) or an allowed edge. -/
def chainOk (edge : Stage → Stage → Bool) : List Stage → Bool
  | a :: b :: rest =>
      (if a = b then true else edge a b) && chainOk edge (b :: rest)
  | _ => true

/-- Terminal stages appear only as the final element of a trace. -/
def termTail : List Stage → Bool
  | [] => true
  | [_] => true
  | a :: rest => !a.IsTermination && termTail rest

/-- The edge relation claimed by the spec for the DHT discoverer:
Idle to Bootstrapping to WaitingForPublicAddrs to Lookup, Lookup and
Retrying interleaving, Stopped after the lookup phase, and Error from any
non-terminal stage. -/
def claimedEdge : Stage → Stage → Bool
  | Stage.Idle, Stage.Bootstrapping => true
  | Stage.Bootstrapping, Stage.WaitingForPublicAddrs => true
  | Stage.WaitingForPublicAddrs, Stage.Lookup => true
  | Stage.Lookup, Stage.Retrying => true
  | Stage.Retrying, Stage.Lookup => true
  | Stage.Retrying, Stage.Stopped => true
  | Stage.Lookup, Stage.Stopped => true
  | s, Stage.Error => !s.IsTermination
  | _, _ => false

/-- The claimed edges amended with the cancellation edges the code also
takes: StageStopped is stored directly from Bootstrapping and from
WaitingForPublicAddrs when the session context is cancelled there. -/
def amendedEdge (a b : Stage) : Bool :=
  claimedEdge a b ||
    (decide (b = Stage.Stopped) &&
      (decide (a = Stage.Bootstrapping) || decide (a = Stage.WaitingForPublicAddrs)))

/-- Decision taken by the supervisor watch loop after a done signal. -/
inductive WatchAction where
  | shutdownAndExit
  | exitSilently
  | keepWatching
deriving DecidableEq, Repr

/-- (Node).watchDiscoverErrors from package receive, loop body after one of
the four SigDone channels fires: read the four stages; if all four are
StageError, call Shutdown and return; if all four are in a termination
stage, return silently; otherwise keep watching. -/
def Receive.watchDiscoverErrors (s1 s2 s3 s4 : Stage) : WatchAction :=
  if s1 = Stage.Error ∧ s2 = Stage.Error ∧ s3 = Stage.Error ∧ s4 = Stage.Error then
    WatchAction.shutdownAndExit
  else if s1.IsTermination ∧ s2.IsTermination ∧ s3.IsTermination ∧ s4.IsTermination then
    WatchAction.exitSilently
  else
    WatchAction.keepWatching

/-- Outcomes of the external calls made by one (Node).HandlePeerFound
invocation, one flag per fallible call site: n.Connect, n.StartKeyExchange,
the Network().Connectedness(pi.ID) == NotConnected re-check, and
n.WaitForDirectConn. -/
structure Env where
  connectOk : Bool
  pakeOk : Bool
  stillConnected : Bool
  holePunchOk : Bool
deriving DecidableEq, Repr

/-- The all-success environment. -/
def fullEnv : Env :=
  { connectOk := true, pakeOk := true, stillConnected := true, holePunchOk := true }

/-- Observable events of the connection driver: a value stored into the
peer-state table, a Connect attempt, a StartKeyExchange (PAKE) attempt,
a SetState(Connected) on the session, and CloseRelayedConnections. -/
inductive Event where
  | store (p : Nat) (st : PeerState)
  | connectAttempt (p : Nat)
  | pakeAttempt (p : Nat)
  | sessionSet
  | closeRelayed (p : Nat)
deriving DecidableEq, Repr

/-- Shared state of the receive node touched by HandlePeerFound: the
session state, the peer-state table (sync.Map keyed by peer-ID), the
hole-punch allow list, the event log, and the Shutdown / stopDiscovering
flags. -/
structure NodeShared where
  session : SessionState
  table : List (Nat × PeerState)
  allow : List Nat
  events : List Event
  shutdownCalled : Bool
  discoveringStopped : Bool
deriving DecidableEq, Repr

/-- Lookup in the peer-state table. -/
def lookupPS : List (Nat × PeerState) → Nat → Option PeerState
  | [], _ => none
  | (k, v) :: rest, p => if k = p then some v else lookupPS rest p

/-- sync.Map.Store: replace the entry for the key, appending when absent. -/
def storePS : List (Nat × PeerState) → Nat → PeerState → List (Nat × PeerState)
  | [], p, v => [(p, v)]
  | (k, w) :: rest, p, v =>
      if k = p then (p, v) :: rest else (k, w) :: storePS rest p v

/-- sync.Map.LoadOrStore: returns (actual value, loaded flag, new table);
loaded is false exactly when the default was stored. -/
def loadOrStore (t : List (Nat × PeerState)) (p : Nat) (v : PeerState) :
    PeerState × Bool × List (Nat × PeerState) :=
  match lookupPS t p with
  | some w => (w, true, t)
  | none => (v, false, storePS t p v)

/-- Tail of (Node).HandlePeerFound from `n.peerStates.Store(pi.ID, Connecting)`
on: Connect, then PAKE, then Store(Connected); then the
`n.GetState() == pcpnode.Connected` early return, the
Connectedness re-check (shutting down when NotConnected), SetState(Connected),
stopDiscovering, WaitForDirectConn (shutting down on failure) and
CloseRelayedConnections. -/
def Receive.connectAndAuth (sh : NodeShared) (p : Nat) (env : Env) : NodeShared :=
  let sh1 := { sh with
      table := storePS sh.table p PeerState.Connecting,
      events := sh.events ++ [Event.store p PeerState.Connecting, Event.connectAttempt p] }
  if env.connectOk = false then
    { sh1 with
        table := storePS sh1.table p PeerState.FailedConnecting,
        events := sh1.events ++ [Event.store p PeerState.FailedConnecting] }
  else
    let sh2 := { sh1 with events := sh1.events ++ [Event.pakeAttempt p] }
    if env.pakeOk = false then
      { sh2 with
          table := storePS sh2.table p PeerState.FailedAuthentication,
          events := sh2.events ++ [Event.store p PeerState.FailedAuthentication] }
    else
      let sh3 := { sh2 with
          table := storePS sh2.table p PeerState.Connected,
          events := sh2.events ++ [Event.store p PeerState.Connected] }
      if sh3.session = SessionState.Connected then sh3
      else if env.stillConnected = false then { sh3 with shutdownCalled := true }
      else
        let sh4 := { sh3 with
            session := SessionState.Connected,
            events := sh3.events ++ [Event.sessionSet],
            discoveringStopped := true }
        if env.holePunchOk = false then { sh4 with shutdownCalled := true }
        else { sh4 with events := sh4.events ++ [Event.closeRelayed p] }

/-- (Node).HandlePeerFound from package receive, one whole invocation as a
unit (the serialized view).  Mirrors the source order: the Roaming guard,
AddToHolePunchAllowList, peerStates.LoadOrStore with default NotConnected,
then the switch over the loaded state.  The source switch has explicit
cases only for Connecting and FailedAuthentication (both return) and for
NotConnected and FailedConnecting (both proceed); the value Connected
matches no case, so control falls through and also proceeds. -/
def Receive.HandlePeerFound (sh : NodeShared) (p : Nat) (env : Env) : NodeShared :=
  if sh.session ≠ SessionState.Roaming then sh
  else
    let res := loadOrStore sh.table p PeerState.NotConnected
    let sh2 : NodeShared := { sh with
        allow := p :: sh.allow,
        table := res.2.2,
        events := sh.events ++
          (if res.2.1 then [] else [Event.store p PeerState.NotConnected]) }
    match res.1 with
    | PeerState.Connecting => sh2
    | PeerState.FailedAuthentication => sh2
    | _ => Receive.connectAndAuth sh2 p env

/-- Node state right after StartDiscovering set the session to Roaming:
empty table, empty log, nothing shut down. -/
def initShared : NodeShared :=
  { session := SessionState.Roaming, table := [], allow := [], events := [],
    shutdownCalled := false, discoveringStopped := false }

/-- Serialized invocations of HandlePeerFound, one after the other, from
the initial state. -/
def runSeqMulti (invs : List (Nat × Env)) : NodeShared :=
  invs.foldl (fun sh pe => Receive.HandlePeerFound sh pe.1 pe.2) initShared

/-- Serialized invocations that all carry the same peer-ID. -/
def runSeq (p : Nat) (es : List Env) : NodeShared :=
  es.foldl (fun sh e => Receive.HandlePeerFound sh p e) initShared

/-- Number of Connect attempts in an event log. -/
def countConnectAttempts : List Event → Nat
  | [] => 0
  | Event.connectAttempt _ :: rest => countConnectAttempts rest + 1
  | _ :: rest => countConnectAttempts rest

/-- Number of PAKE attempts in an event log. -/
def countPakeAttempts : List Event → Nat
  | [] => 0
  | Event.pakeAttempt _ :: rest => countPakeAttempts rest + 1
  | _ :: rest => countPakeAttempts rest

/-- Number of SetState(Connected) events in an event log. -/
def countSessionSets : List Event → Nat
  | [] => 0
  | Event.sessionSet :: rest => countSessionSets rest + 1
  | _ :: rest => countSessionSets rest

/-- Number of entries in the peer-state table for a given peer-ID. -/
def entryCount : List (Nat × PeerState) → Nat → Nat
  | [], _ => 0
  | (k, _) :: rest, p => (if k = p then 1 else 0) + entryCount rest p

/-- Number of table entries whose value is Connected. -/
def connectedCount : List (Nat × PeerState) → Nat
  | [] => 0
  | (_, st) :: rest =>
      (if st = PeerState.Connected then 1 else 0) + connectedCount rest

/-- The sequence of values stored for a peer, in program order, read off
the event log. -/
def storedSeq (evs : List Event) (p : Nat) : List PeerState :=
  evs.filterMap (fun e =>
    match e with
    | Event.store q st => if q = p then some st else none
    | _ => none)

/-- Program counter of one in-flight HandlePeerFound invocation.  Each
value names the next atomic shared-memory access of the Go code (the
sync.Map operations, the session-state reads and writes, and the external
calls), in source order. -/
inductive PC where
  | checkRoaming
  | addAllow
  | loadStore
  | storeConnecting
  | doConnect
  | storeFailedConn
  | doPake
  | storeFailedAuth
  | storeConnected
  | checkSession
  | checkConn
  | setSession
  | stopDisc
  | waitDirect
  | closeRelay
  | done
deriving DecidableEq, Repr

/-- One in-flight HandlePeerFound invocation: its peer record's ID, the
outcomes of its external calls, and its next step. -/
structure ThreadSt where
  pid : Nat
  env : Env
  pc : PC
deriving DecidableEq, Repr

/-- A fresh invocation of HandlePeerFound for a peer. -/
def mkThread (p : Nat) (e : Env) : ThreadSt :=
  { pid := p, env := e, pc := PC.checkRoaming }

/-- One atomic step of an in-flight HandlePeerFound invocation against the
shared node state.  This is the same source function as
Receive.HandlePeerFound, decomposed at the granularity of its individual
shared accesses so that invocations can interleave; branch decisions on
values already loaded into locals (the switch over the LoadOrStore result,
the error checks of Connect and PAKE) are folded into the step that
performed the load or call. -/
def stepThread (sh : NodeShared) (t : ThreadSt) : NodeShared × ThreadSt :=
  match t.pc with
  | PC.checkRoaming =>
      if sh.session ≠ SessionState.Roaming then (sh, { t with pc := PC.done })
      else (sh, { t with pc := PC.addAllow })
  | PC.addAllow =>
      ({ sh with allow := t.pid :: sh.allow }, { t with pc := PC.loadStore })
  | PC.loadStore =>
      let res := loadOrStore sh.table t.pid PeerState.NotConnected
      let sh1 := { sh with
          table := res.2.2,
          events := sh.events ++
            (if res.2.1 then [] else [Event.store t.pid PeerState.NotConnected]) }
      match res.1 with
      | PeerState.Connecting => (sh1, { t with pc := PC.done })
      | PeerState.FailedAuthentication => (sh1, { t with pc := PC.done })
      | _ => (sh1, { t with pc := PC.storeConnecting })
  | PC.storeConnecting =>
      ({ sh with
          table := storePS sh.table t.pid PeerState.Connecting,
          events := sh.events ++ [Event.store t.pid PeerState.Connecting] },
       { t with pc := PC.doConnect })
  | PC.doConnect =>
      ({ sh with events := sh.events ++ [Event.connectAttempt t.pid] },
       { t with pc := if t.env.connectOk then PC.doPake else PC.storeFailedConn })
  | PC.storeFailedConn =>
      ({ sh with
          table := storePS sh.table t.pid PeerState.FailedConnecting,
          events := sh.events ++ [Event.store t.pid PeerState.FailedConnecting] },
       { t with pc := PC.done })
  | PC.doPake =>
      ({ sh with events := sh.events ++ [Event.pakeAttempt t.pid] },
       { t with pc := if t.env.pakeOk then PC.storeConnected else PC.storeFailedAuth })
  | PC.storeFailedAuth =>
      ({ sh with
          table := storePS sh.table t.pid PeerState.FailedAuthentication,
          events := sh.events ++ [Event.store t.pid PeerState.FailedAuthentication] },
       { t with pc := PC.done })
  | PC.storeConnected =>
      ({ sh with
          table := storePS sh.table t.pid PeerState.Connected,
          events := sh.events ++ [Event.store t.pid PeerState.Connected] },
       { t with pc := PC.checkSession })
  | PC.checkSession =>
      if sh.session = SessionState.Connected then (sh, { t with pc := PC.done })
      else (sh, { t with pc := PC.checkConn })
  | PC.checkConn =>
      if t.env.stillConnected then (sh, { t with pc := PC.setSession })
      else ({ sh with shutdownCalled := true }, { t with pc := PC.done })
  | PC.setSession =>
      ({ sh with
          session := SessionState.Connected,
          events := sh.events ++ [Event.sessionSet] },
       { t with pc := PC.stopDisc })
  | PC.stopDisc =>
      ({ sh with discoveringStopped := true }, { t with pc := PC.waitDirect })
  | PC.waitDirect =>
      if t.env.holePunchOk then (sh, { t with pc := PC.closeRelay })
      else ({ sh with shutdownCalled := true }, { t with pc := PC.done })
  | PC.closeRelay =>
      ({ sh with events := sh.events ++ [Event.closeRelayed t.pid] },
       { t with pc := PC.done })
  | PC.done => (sh, t)

/-- Run a set of in-flight invocations under an explicit schedule: each
schedule entry names the thread that performs its next atomic step.
Out-of-range entries and finished threads are no-ops. -/
def runSched (sh : NodeShared) (ts : List ThreadSt) :
    List Nat → NodeShared × List ThreadSt
  | [] => (sh, ts)
  | i :: rest =>
    match ts[i]? with
    | none => runSched sh ts rest
    | some t =>
      let r := stepThread sh t
      runSched r.1 (ts.set i r.2) rest

/-- C10: a peer record whose peer-ID equals the local host's own ID is
dropped by the mDNS notifee without being emitted. -/
theorem c10_self_filtered (selfID : Nat) (pi : AddrInfo) (h : pi.id = selfID) :
    Mdns.HandlePeerFound selfID pi = none := by
  simp [Mdns.HandlePeerFound, h]

/-- C10 witness: concrete self record with a private address. -/
theorem c10_self_filtered_witness :
    (AddrInfo.mk 3 [Multiaddr.mk true]).id = 3 ∧
    Mdns.HandlePeerFound 3 (AddrInfo.mk 3 [Multiaddr.mk true]) = none :=
  ⟨rfl, c10_self_filtered 3 (AddrInfo.mk 3 [Multiaddr.mk true]) rfl⟩

/-- C6 counterexample: a record carrying the local host's own ID and one
private address has a non-empty private address set yet is not emitted, so
"emits iff the filtered address set is non-empty" fails as stated over all
records delivered on the mDNS path. -/
theorem c6_counterexample :
    (onlyPrivate [Multiaddr.mk true]).length ≠ 0 ∧
    Mdns.HandlePeerFound 1 (AddrInfo.mk 1 [Multiaddr.mk true]) = none := by
  decide

/-- C6 amended: for every record whose peer-ID differs from the local
host's, the mDNS path emits the peer iff its address set minus public
addresses is non-empty; a record with only public addresses is never
emitted (and hence never reaches the peer-state table). -/
theorem c6_amended (selfID : Nat) (pi : AddrInfo) (h : pi.id ≠ selfID) :
    ((Mdns.HandlePeerFound selfID pi).isSome = true ↔ onlyPrivate pi.addrs ≠ []) ∧
    (onlyPrivate pi.addrs = [] → Mdns.HandlePeerFound selfID pi = none) := by
  unfold Mdns.HandlePeerFound
  rw [if_neg h]
  constructor
  · by_cases hl : (onlyPrivate pi.addrs).length = 0
    · simp [hl, List.length_eq_zero.mp hl]
    · have hne : onlyPrivate pi.addrs ≠ [] := by
        intro hh
        rw [hh] at hl
        exact hl rfl
      simp [hl, hne]
  · intro he
    simp [he]

/-- C6 amended witness: non-self record with one private and one public
address is emitted with the public address removed. -/
theorem c6_amended_witness :
    (AddrInfo.mk 2 [Multiaddr.mk true, Multiaddr.mk false]).id ≠ 1 ∧
    (((Mdns.HandlePeerFound 1 (AddrInfo.mk 2 [Multiaddr.mk true, Multiaddr.mk false])).isSome
        = true ↔
      onlyPrivate [Multiaddr.mk true, Multiaddr.mk false] ≠ []) ∧
     (onlyPrivate [Multiaddr.mk true, Multiaddr.mk false] = [] →
      Mdns.HandlePeerFound 1 (AddrInfo.mk 2 [Multiaddr.mk true, Multiaddr.mk false]) = none)) :=
  ⟨by decide, c6_amended 1 (AddrInfo.mk 2 [Multiaddr.mk true, Multiaddr.mk false]) (by decide)⟩

/-- C4 counterexample: with 5 bootstrap peers and ConnThreshold = 3, a run
with exactly N - ConnThreshold = 2 successful connections does not succeed:
it returns ErrConnThresholdNotReached carrying all per-peer errors. -/
theorem c4_counterexample :
    (5 : Nat) - ConnThreshold = 2 ∧
    ([none, none, some 1, some 2, some 3] : List (Option Nat)).length = 5 ∧
    Dht.bootstrap false [none, none, some 1, some 2, some 3] ConnThreshold =
      BootstrapOutcome.errThreshold [1, 2, 3] ∧
    Dht.bootstrap false [none, none, some 1, some 2, some 3] ConnThreshold ≠
      BootstrapOutcome.ok := by
  decide

/-- C4 amended: for a non-empty bootstrap list, bootstrap succeeds iff at
least ConnThreshold connections succeed (equivalently, with exactly
N - ConnThreshold failures); with fewer successes it fails with
ErrConnThresholdNotReached carrying all per-peer connection errors. -/
theorem c4_amended (rs : List (Option Nat)) (thr : Nat) (h : 0 < rs.length) :
    (thr ≤ rs.length - (rs.filterMap id).length →
        Dht.bootstrap false rs thr = BootstrapOutcome.ok) ∧
    (rs.length - (rs.filterMap id).length < thr →
        Dht.bootstrap false rs thr = BootstrapOutcome.errThreshold (rs.filterMap id)) := by
  unfold Dht.bootstrap
  rw [if_neg (by omega)]
  constructor
  · intro hle
    rw [if_neg (by omega)]
  · intro hlt
    rw [if_pos hlt]
    simp

/-- C4 amended witness: with 5 peers and threshold 3, exactly 3 successes
succeed and exactly 2 successes fail with the collected errors. -/
theorem c4_amended_witness :
    0 < ([none, none, none, some 1, some 2] : List (Option Nat)).length ∧
    Dht.bootstrap false [none, none, none, some 1, some 2] 3 = BootstrapOutcome.ok ∧
    Dht.bootstrap false [none, none, some 1, some 2, some 3] 3 =
      BootstrapOutcome.errThreshold [1, 2, 3] :=
  ⟨by decide,
   (c4_amended [none, none, none, some 1, some 2] 3 (by decide)).1 (by decide),
   (c4_amended [none, none, some 1, some 2, some 3] 3 (by decide)).2 (by decide)⟩

/-- C5 counterexample: with the context cancelled but the connection
threshold reached, bootstrap returns success rather than surfacing the
context-cancellation error, so "whenever the session context is cancelled
during DHT bootstrap, bootstrap surfaces the context-cancellation error"
fails as stated. -/
theorem c5_counterexample :
    Dht.bootstrap true [none, none, none] ConnThreshold = BootstrapOutcome.ok := by
  decide

/-- C5 amended: whenever the context is cancelled during bootstrap and the
threshold was not reached, bootstrap surfaces the context error (never
ErrConnThresholdNotReached, never any other category), and a Discover run
whose bootstrap returns the context error ends in StageStopped, not
StageError. -/
theorem c5_amended (rs : List (Option Nat)) (thr : Nat) (env : DiscoverEnv)
    (h0 : rs.length ≠ 0) (hlt : rs.length - (rs.filterMap id).length < thr)
    (hs : env.serviceStartOk = true)
    (hb : env.bootstrapOutcome = BootstrapOutcome.errCanceled) :
    Dht.bootstrap true rs thr = BootstrapOutcome.errCanceled ∧
    (Dht.Discover env).1 = [Stage.Idle, Stage.Bootstrapping, Stage.Stopped] := by
  constructor
  · unfold Dht.bootstrap
    rw [if_neg h0, if_pos hlt]
    simp
  · simp [Dht.Discover, hs, hb]

/-- C5 amended witness: all three bootstrap connections fail under a
cancelled context; the discoverer then stops. -/
theorem c5_amended_witness :
    ([some 1, some 2, some 3] : List (Option Nat)).length ≠ 0 ∧
    ([some 1, some 2, some 3] : List (Option Nat)).length -
      (([some 1, some 2, some 3] : List (Option Nat)).filterMap id).length < 3 ∧
    (Dht.bootstrap true [some 1, some 2, some 3] 3 = BootstrapOutcome.errCanceled ∧
     (Dht.Discover (DiscoverEnv.mk true BootstrapOutcome.errCanceled WaitOutcome.ok [])).1 =
       [Stage.Idle, Stage.Bootstrapping, Stage.Stopped]) :=
  ⟨by decide, by decide,
   c5_amended [some 1, some 2, some 3] 3
     (DiscoverEnv.mk true BootstrapOutcome.errCanceled WaitOutcome.ok [])
     (by decide) (by decide) rfl rfl⟩

/-- A non-terminal stage can be prepended to a trace whose terminal stages
are already only at the end. -/
theorem termTail_cons (s : Stage) (l : List Stage)
    (hs : s.IsTermination = false) (hl : termTail l = true) :
    termTail (s :: l) = true := by
  cases l with
  | nil => rfl
  | cons b m => simp [termTail, hs, hl]

/-- The lookup-loop trace continues any trace ending in StageLookup or
StageRetrying along the amended edges, and stores terminal stages only
last. -/
theorem discoverLoop_chain (iters : List LookupIter) :
    chainOk amendedEdge (Stage.Lookup :: (Dht.discoverLoop iters).1) = true ∧
    chainOk amendedEdge (Stage.Retrying :: (Dht.discoverLoop iters).1) = true ∧
    termTail (Dht.discoverLoop iters).1 = true := by
  induction iters with
  | nil => exact ⟨rfl, rfl, rfl⟩
  | cons it rest ih =>
    obtain ⟨ih1, ih2, ih3⟩ := ih
    by_cases h1 : it.contentIDOk = false
    · simp [Dht.discoverLoop, h1]
      decide
    · by_cases h2 : it.shutdownAfter
      · simp [Dht.discoverLoop, h1, h2]
        decide
      · simp only [Dht.discoverLoop, h1, if_false]
        rw [if_neg h2]
        refine ⟨?_, ?_, ?_⟩
        · simp [chainOk]
          exact ⟨by decide, ih2⟩
        · simp [chainOk]
          exact ih2
        · exact termTail_cons _ _ rfl ih3

/-- C7 counterexample: a Discover run whose session context is cancelled
during bootstrap stores the stage sequence Idle, Bootstrapping, Stopped;
the step Bootstrapping to Stopped is outside the claimed edge relation, so
the stage does not evolve only along the claimed edges. -/
theorem c7_counterexample :
    (Dht.Discover
        (DiscoverEnv.mk true BootstrapOutcome.errCanceled WaitOutcome.ok [])).1 =
      [Stage.Idle, Stage.Bootstrapping, Stage.Stopped] ∧
    chainOk claimedEdge
      (Dht.Discover
        (DiscoverEnv.mk true BootstrapOutcome.errCanceled WaitOutcome.ok [])).1 = false := by
  decide

/-- C7 amended: every Discover run evolves only along the claimed edges
plus the cancellation edges Bootstrapping to Stopped and
WaitingForPublicAddrs to Stopped, and Stopped and Error are terminal
(stored only as the last stage of the run). -/
theorem c7_amended (env : DiscoverEnv) :
    chainOk amendedEdge (Dht.Discover env).1 = true ∧
    termTail (Dht.Discover env).1 = true := by
  obtain ⟨sOk, b, w, iters⟩ := env
  cases sOk
  case false =>
    have h : (Dht.Discover (DiscoverEnv.mk false b w iters)).1 =
        [Stage.Idle, Stage.Error] := rfl
    rw [h]
    exact ⟨by decide, by decide⟩
  case true =>
    cases b
    case errNoPeers =>
      have h : (Dht.Discover (DiscoverEnv.mk true BootstrapOutcome.errNoPeers w iters)).1 =
          [Stage.Idle, Stage.Bootstrapping, Stage.Error] := rfl
      rw [h]
      exact ⟨by decide, by decide⟩
    case errThreshold errs =>
      have h : (Dht.Discover
          (DiscoverEnv.mk true (BootstrapOutcome.errThreshold errs) w iters)).1 =
          [Stage.Idle, Stage.Bootstrapping, Stage.Error] := rfl
      rw [h]
      exact ⟨by decide, by decide⟩
    case errCanceled =>
      have h : (Dht.Discover (DiscoverEnv.mk true BootstrapOutcome.errCanceled w iters)).1 =
          [Stage.Idle, Stage.Bootstrapping, Stage.Stopped] := rfl
      rw [h]
      exact ⟨by decide, by decide⟩
    case ok =>
      cases w
      case canceled =>
        have h : (Dht.Discover
            (DiscoverEnv.mk true BootstrapOutcome.ok WaitOutcome.canceled iters)).1 =
            [Stage.Idle, Stage.Bootstrapping, Stage.WaitingForPublicAddrs, Stage.Stopped] := rfl
        rw [h]
        exact ⟨by decide, by decide⟩
      case err =>
        have h : (Dht.Discover
            (DiscoverEnv.mk true BootstrapOutcome.ok WaitOutcome.err iters)).1 =
            [Stage.Idle, Stage.Bootstrapping, Stage.WaitingForPublicAddrs, Stage.Error] := rfl
        rw [h]
        exact ⟨by decide, by decide⟩
      case ok =>
        obtain ⟨h1, h2, h3⟩ := discoverLoop_chain iters
        have h : (Dht.Discover (DiscoverEnv.mk true BootstrapOutcome.ok WaitOutcome.ok iters)).1 =
            Stage.Idle :: Stage.Bootstrapping :: Stage.WaitingForPublicAddrs :: Stage.Lookup ::
              (Dht.discoverLoop iters).1 := rfl
        rw [h]
        exact ⟨h1, termTail_cons _ _ rfl (termTail_cons _ _ rfl (termTail_cons _ _ rfl
          (termTail_cons _ _ rfl h3)))⟩

/-- C8: in every iteration of the lookup loop whose ContentID derivation
succeeds, the provider lookup is issued bounded by lookupTimeout (which is
10 seconds); a peer is handed to on_peer_found, as an asynchronous spawn,
iff it was returned and its address set is non-empty (empty-address peers
are dropped); when shutdown is not signalled the loop stores StageRetrying
and repeats on the remaining iterations; when shutdown is signalled it
stores StageStopped and stops. -/
theorem c8_lookup_loop :
    lookupTimeout = 10 ∧
    (∀ it : LookupIter, DEvent.lookupStarted lookupTimeout ∈ Dht.lookupIteration it) ∧
    (∀ (it : LookupIter) (pi : AddrInfo),
        DEvent.spawnNotify pi ∈ Dht.lookupIteration it ↔
          pi ∈ it.peers ∧ 0 < pi.addrs.length) ∧
    (∀ (it : LookupIter) (rest : List LookupIter),
        it.contentIDOk = true → it.shutdownAfter = false →
        Dht.discoverLoop (it :: rest) =
          (Stage.Retrying :: (Dht.discoverLoop rest).1,
           Dht.lookupIteration it ++ (Dht.discoverLoop rest).2)) ∧
    (∀ (it : LookupIter) (rest : List LookupIter),
        it.contentIDOk = true → it.shutdownAfter = true →
        Dht.discoverLoop (it :: rest) = ([Stage.Stopped], Dht.lookupIteration it)) := by
  refine ⟨rfl, ?_, ?_, ?_, ?_⟩
  · intro it
    exact List.mem_cons_self _ _
  · intro it pi
    simp [Dht.lookupIteration, List.mem_filter]
  · intro it rest h1 h2
    simp [Dht.discoverLoop, h1, h2]
  · intro it rest h1 h2
    simp [Dht.discoverLoop, h1, h2]

/-- C8 witness: concrete two-iteration run; the peer with an address is
spawned, the address-less peer is dropped, the first iteration retries and
the second stops on shutdown. -/
theorem c8_lookup_loop_witness :
    lookupTimeout = 10 ∧
    DEvent.lookupStarted lookupTimeout ∈
      Dht.lookupIteration (LookupIter.mk true [AddrInfo.mk 5 [Multiaddr.mk true]] false) ∧
    (DEvent.spawnNotify (AddrInfo.mk 5 [Multiaddr.mk true]) ∈
      Dht.lookupIteration
        (LookupIter.mk true [AddrInfo.mk 5 [Multiaddr.mk true], AddrInfo.mk 6 []] false)) ∧
    Dht.discoverLoop
        [LookupIter.mk true [AddrInfo.mk 5 [Multiaddr.mk true], AddrInfo.mk 6 []] false,
         LookupIter.mk true [] true] =
      (Stage.Retrying ::
         (Dht.discoverLoop [LookupIter.mk true [] true]).1,
       Dht.lookupIteration
           (LookupIter.mk true [AddrInfo.mk 5 [Multiaddr.mk true], AddrInfo.mk 6 []] false) ++
         (Dht.discoverLoop [LookupIter.mk true [] true]).2) ∧
    Dht.discoverLoop [LookupIter.mk true [] true] =
      ([Stage.Stopped], Dht.lookupIteration (LookupIter.mk true [] true)) :=
  ⟨c8_lookup_loop.1,
   c8_lookup_loop.2.1 _,
   (c8_lookup_loop.2.2.1 _ _).mpr ⟨by decide, by decide⟩,
   c8_lookup_loop.2.2.2.1 _ _ rfl rfl,
   c8_lookup_loop.2.2.2.2 _ _ rfl rfl⟩

/-- C9: after a done signal the supervisor decision is exactly: all four
stages Error means shut the session down; all four terminal with at least
one Stopped means exit the watch loop silently; any non-terminal stage
means keep watching. -/
theorem c9_watch (s1 s2 s3 s4 : Stage) :
    ((s1 = Stage.Error ∧ s2 = Stage.Error ∧ s3 = Stage.Error ∧ s4 = Stage.Error) →
        Receive.watchDiscoverErrors s1 s2 s3 s4 = WatchAction.shutdownAndExit) ∧
    ((s1.IsTermination = true ∧ s2.IsTermination = true ∧ s3.IsTermination = true ∧
        s4.IsTermination = true ∧
        (s1 = Stage.Stopped ∨ s2 = Stage.Stopped ∨ s3 = Stage.Stopped ∨ s4 = Stage.Stopped)) →
        Receive.watchDiscoverErrors s1 s2 s3 s4 = WatchAction.exitSilently) ∧
    (¬(s1.IsTermination = true ∧ s2.IsTermination = true ∧ s3.IsTermination = true ∧
        s4.IsTermination = true) →
        Receive.watchDiscoverErrors s1 s2 s3 s4 = WatchAction.keepWatching) := by
  revert s1 s2 s3 s4
  decide

/-- C9 witness: the three decision branches at concrete stage vectors. -/
theorem c9_watch_witness :
    Receive.watchDiscoverErrors Stage.Error Stage.Error Stage.Error Stage.Error =
      WatchAction.shutdownAndExit ∧
    Receive.watchDiscoverErrors Stage.Stopped Stage.Error Stage.Error Stage.Error =
      WatchAction.exitSilently ∧
    Receive.watchDiscoverErrors Stage.Stopped Stage.Lookup Stage.Error Stage.Error =
      WatchAction.keepWatching :=
  ⟨(c9_watch Stage.Error Stage.Error Stage.Error Stage.Error).1 ⟨rfl, rfl, rfl, rfl⟩,
   (c9_watch Stage.Stopped Stage.Error Stage.Error Stage.Error).2.1
     ⟨rfl, rfl, rfl, rfl, Or.inl rfl⟩,
   (c9_watch Stage.Stopped Stage.Lookup Stage.Error Stage.Error).2.2 (by decide)⟩

/-- Sanity check that the two renditions of HandlePeerFound agree: one
invocation run alone to completion on the step machine computes the same
final shared state as the straight-line function. -/
theorem stepMachine_agrees :
    (runSched initShared [mkThread 7 fullEnv] (List.replicate 16 0)).1 =
      Receive.HandlePeerFound initShared 7 fullEnv := by
  decide

/-- C1 counterexample: two concurrent HandlePeerFound invocations for the
same peer-ID 7, both interleaved between the LoadOrStore and the
Store(Connecting) of the other, perform two Connect attempts and two PAKE
attempts (the peer-state table still holds one entry), refuting "exactly
one Connect attempt and exactly one PAKE attempt" for concurrent
invocations. -/
theorem c1_counterexample :
    countConnectAttempts
        (runSched initShared [mkThread 7 fullEnv, mkThread 7 fullEnv]
          [0, 0, 0, 1, 1, 1, 0, 0, 1, 1, 0, 1, 0, 0, 0, 0, 0, 0, 0, 1, 1]).1.events = 2 ∧
    countPakeAttempts
        (runSched initShared [mkThread 7 fullEnv, mkThread 7 fullEnv]
          [0, 0, 0, 1, 1, 1, 0, 0, 1, 1, 0, 1, 0, 0, 0, 0, 0, 0, 0, 1, 1]).1.events = 2 ∧
    entryCount
        (runSched initShared [mkThread 7 fullEnv, mkThread 7 fullEnv]
          [0, 0, 0, 1, 1, 1, 0, 0, 1, 1, 0, 1, 0, 0, 0, 0, 0, 0, 0, 1, 1]).1.table 7 = 1 := by
  decide

/-- C2 counterexample: two concurrent invocations for distinct peers 1 and
2, each paused between the session-state read (GetState) and the
session-state write (SetState), both store Connected for their peer and
both perform the Roaming-to-Connected session write, refuting both "at
most one peer ever reaches Connected" and "no two candidate-handling
invocations can both win the transition". -/
theorem c2_counterexample :
    lookupPS
        (runSched initShared [mkThread 1 fullEnv, mkThread 2 fullEnv]
          (List.replicate 9 0 ++ List.replicate 9 1 ++ [0, 1, 0, 0, 0, 1, 1, 1])).1.table 1 =
      some PeerState.Connected ∧
    lookupPS
        (runSched initShared [mkThread 1 fullEnv, mkThread 2 fullEnv]
          (List.replicate 9 0 ++ List.replicate 9 1 ++ [0, 1, 0, 0, 0, 1, 1, 1])).1.table 2 =
      some PeerState.Connected ∧
    countSessionSets
        (runSched initShared [mkThread 1 fullEnv, mkThread 2 fullEnv]
          (List.replicate 9 0 ++ List.replicate 9 1 ++ [0, 1, 0, 0, 0, 1, 1, 1])).1.events = 2 := by
  decide

/-- The peer-state edges claimed by the spec: NotConnected to Connecting;
Connecting to Connected, FailedConnecting or FailedAuthentication;
FailedConnecting to Connecting; nothing else. -/
def claimedPeerEdge : PeerState → PeerState → Bool
  | PeerState.NotConnected, PeerState.Connecting => true
  | PeerState.Connecting, PeerState.Connected => true
  | PeerState.Connecting, PeerState.FailedConnecting => true
  | PeerState.Connecting, PeerState.FailedAuthentication => true
  | PeerState.FailedConnecting, PeerState.Connecting => true
  | _, _ => false

/-- A stored-value sequence follows the claimed peer edges when every
consecutive pair is a claimed edge. -/
def peerChainOk : List PeerState → Bool
  | a :: b :: rest => claimedPeerEdge a b && peerChainOk (b :: rest)
  | _ => true

/-- C3 failing-input evaluation: peer 7 is discovered, connects and passes
PAKE, but the Connectedness re-check fails, so the node starts shutting
down while the session state is still Roaming and the table holds
(7, Connected).  A second serialized discovery of peer 7 then falls
through the switch (which has no case for Connected), stores Connecting
again and re-attempts Connect and PAKE: the stored sequence takes the edge
Connected to Connecting, which the claimed edge set forbids. -/
theorem c3_connected_fallthrough :
    storedSeq
        (runSeqMulti [(7, Env.mk true true false true), (7, fullEnv)]).events 7 =
      [PeerState.NotConnected, PeerState.Connecting, PeerState.Connected,
       PeerState.Connecting, PeerState.Connected] ∧
    peerChainOk
        (storedSeq (runSeqMulti [(7, Env.mk true true false true), (7, fullEnv)]).events 7) =
      false ∧
    countConnectAttempts
        (runSeqMulti [(7, Env.mk true true false true), (7, fullEnv)]).events = 2 := by
  decide

/-- An invocation arriving while the session is not Roaming returns without
touching any state. -/
theorem handle_not_roaming (sh : NodeShared) (p : Nat) (e : Env)
    (h : sh.session ≠ SessionState.Roaming) :
    Receive.HandlePeerFound sh p e = sh := by
  unfold Receive.HandlePeerFound
  rw [if_pos h]

/-- Once the session is Connected, any number of further serialized
invocations is a no-op. -/
theorem foldl_handle_const (p : Nat) (m : Nat) (s : NodeShared)
    (h : s.session = SessionState.Connected) :
    (List.replicate m fullEnv).foldl (fun sh e => Receive.HandlePeerFound sh p e) s = s := by
  induction m with
  | zero => rfl
  | succ k ih =>
    rw [List.replicate_succ, List.foldl_cons,
        handle_not_roaming s p fullEnv (by rw [h]; decide)]
    exact ih

/-- Full evaluation of the first invocation for a fresh peer under the
all-success environment: one Connect attempt, one PAKE attempt, the peer
stored Connected, the session set to Connected, discovery stopped. -/
theorem handle_first (p : Nat) :
    Receive.HandlePeerFound initShared p fullEnv =
      NodeShared.mk SessionState.Connected [(p, PeerState.Connected)] [p]
        [Event.store p PeerState.NotConnected, Event.store p PeerState.Connecting,
         Event.connectAttempt p, Event.pakeAttempt p, Event.store p PeerState.Connected,
         Event.sessionSet, Event.closeRelayed p] false true := by
  simp [Receive.HandlePeerFound, Receive.connectAndAuth, initShared, loadOrStore,
        lookupPS, storePS, fullEnv]

/-- C1 amended: when the invocations are serialized (no two overlapping)
and each invocation's Connect, PAKE, connectedness re-check and hole punch
succeed, any number of invocations carrying the same peer-ID yields
exactly one Connect attempt, exactly one PAKE attempt and exactly one
peer-state table entry for that peer. -/
theorem c1_amended (p : Nat) (n : Nat) :
    countConnectAttempts (runSeq p (List.replicate (n + 1) fullEnv)).events = 1 ∧
    countPakeAttempts (runSeq p (List.replicate (n + 1) fullEnv)).events = 1 ∧
    entryCount (runSeq p (List.replicate (n + 1) fullEnv)).table p = 1 := by
  have hrun : runSeq p (List.replicate (n + 1) fullEnv) =
      NodeShared.mk SessionState.Connected [(p, PeerState.Connected)] [p]
        [Event.store p PeerState.NotConnected, Event.store p PeerState.Connecting,
         Event.connectAttempt p, Event.pakeAttempt p, Event.store p PeerState.Connected,
         Event.sessionSet, Event.closeRelayed p] false true := by
    unfold runSeq
    rw [List.replicate_succ, List.foldl_cons, handle_first p, foldl_handle_const p n _ rfl]
  rw [hrun]
  refine ⟨?_, ?_, ?_⟩ <;>
    simp [countConnectAttempts, countPakeAttempts, entryCount]

/-- Storing into a table with no Connected entry yields a table whose
Connected-entry count is 1 when the stored value is Connected and 0
otherwise. -/
theorem connectedCount_storePS : ∀ (t : List (Nat × PeerState)) (p : Nat) (v : PeerState),
    connectedCount t = 0 →
    connectedCount (storePS t p v) = if v = PeerState.Connected then 1 else 0 := by
  intro t
  induction t with
  | nil =>
    intro p v _
    simp [storePS, connectedCount]
  | cons kv rest ih =>
    intro p v h
    obtain ⟨k, w⟩ := kv
    have hw : (if w = PeerState.Connected then 1 else 0) + connectedCount rest = 0 := h
    have hr : connectedCount rest = 0 := by omega
    have hw0 : (if w = PeerState.Connected then 1 else 0) = 0 := by omega
    by_cases hk : k = p
    · rw [show storePS ((k, w) :: rest) p v = (p, v) :: rest from by simp [storePS, hk]]
      show (if v = PeerState.Connected then 1 else 0) + connectedCount rest =
        if v = PeerState.Connected then 1 else 0
      omega
    · rw [show storePS ((k, w) :: rest) p v = (k, w) :: storePS rest p v from by
        simp [storePS, hk]]
      show (if w = PeerState.Connected then 1 else 0) + connectedCount (storePS rest p v) =
        if v = PeerState.Connected then 1 else 0
      rw [ih p v hr]
      omega

/-- LoadOrStore with default NotConnected keeps a Connected-free table
Connected-free. -/
theorem connectedCount_loadOrStore (t : List (Nat × PeerState)) (p : Nat)
    (h : connectedCount t = 0) :
    connectedCount (loadOrStore t p PeerState.NotConnected).2.2 = 0 := by
  unfold loadOrStore
  cases hl : lookupPS t p with
  | some w => exact h
  | none =>
    show connectedCount (storePS t p PeerState.NotConnected) = 0
    rw [connectedCount_storePS t p _ h]
    rfl

/-- The connect-and-authenticate tail preserves the at-most-one-Connected
invariant from a Connected-free table, provided the connectedness re-check
succeeds (the re-check failure path initiates shutdown while the session
is still Roaming, which is exactly the path the amended C2 excludes). -/
theorem connectAndAuth_inv (sh : NodeShared) (p : Nat) (e : Env)
    (h0 : connectedCount sh.table = 0) (hstill : e.stillConnected = true) :
    ((Receive.connectAndAuth sh p e).session = SessionState.Roaming →
        connectedCount (Receive.connectAndAuth sh p e).table = 0) ∧
    connectedCount (Receive.connectAndAuth sh p e).table ≤ 1 := by
  have h1 : connectedCount (storePS sh.table p PeerState.Connecting) = 0 := by
    rw [connectedCount_storePS sh.table p _ h0]; rfl
  obtain ⟨co, po, sc, hp⟩ := e
  cases sc
  case false => exact Bool.noConfusion hstill
  case true =>
  cases co
  case false =>
    have h2 : connectedCount
        (storePS (storePS sh.table p PeerState.Connecting) p PeerState.FailedConnecting) = 0 := by
      rw [connectedCount_storePS _ p _ h1]; rfl
    constructor
    · intro _
      exact h2
    · show connectedCount
        (storePS (storePS sh.table p PeerState.Connecting) p PeerState.FailedConnecting) ≤ 1
      omega
  case true =>
  cases po
  case false =>
    have h2 : connectedCount
        (storePS (storePS sh.table p PeerState.Connecting) p PeerState.FailedAuthentication) = 0 := by
      rw [connectedCount_storePS _ p _ h1]; rfl
    constructor
    · intro _
      exact h2
    · show connectedCount
        (storePS (storePS sh.table p PeerState.Connecting) p PeerState.FailedAuthentication) ≤ 1
      omega
  case true =>
    have h3 : connectedCount
        (storePS (storePS sh.table p PeerState.Connecting) p PeerState.Connected) = 1 := by
      rw [connectedCount_storePS _ p _ h1]; rfl
    by_cases hses : sh.session = SessionState.Connected
    · constructor
      · intro hr
        exfalso
        revert hr
        simp [Receive.connectAndAuth, hses]
      · have : connectedCount (Receive.connectAndAuth sh p (Env.mk true true true hp)).table =
            connectedCount
              (storePS (storePS sh.table p PeerState.Connecting) p PeerState.Connected) := by
          simp [Receive.connectAndAuth, hses]
        rw [this, h3]
    · cases hp with
      | false =>
        constructor
        · intro hr
          exfalso
          revert hr
          simp [Receive.connectAndAuth, hses]
        · have : connectedCount (Receive.connectAndAuth sh p (Env.mk true true true false)).table =
              connectedCount
                (storePS (storePS sh.table p PeerState.Connecting) p PeerState.Connected) := by
            simp [Receive.connectAndAuth, hses]
          rw [this, h3]
      | true =>
        constructor
        · intro hr
          exfalso
          revert hr
          simp [Receive.connectAndAuth, hses]
        · have : connectedCount (Receive.connectAndAuth sh p (Env.mk true true true true)).table =
              connectedCount
                (storePS (storePS sh.table p PeerState.Connecting) p PeerState.Connected) := by
            simp [Receive.connectAndAuth, hses]
          rw [this, h3]

/-- One serialized HandlePeerFound invocation preserves the at-most-one-
Connected invariant when its connectedness re-check succeeds. -/
theorem handle_inv (sh : NodeShared) (p : Nat) (e : Env)
    (hinv : (sh.session = SessionState.Roaming → connectedCount sh.table = 0) ∧
            connectedCount sh.table ≤ 1)
    (hstill : e.stillConnected = true) :
    ((Receive.HandlePeerFound sh p e).session = SessionState.Roaming →
        connectedCount (Receive.HandlePeerFound sh p e).table = 0) ∧
    connectedCount (Receive.HandlePeerFound sh p e).table ≤ 1 := by
  by_cases hs : sh.session = SessionState.Roaming
  case neg =>
    rw [handle_not_roaming sh p e hs]
    exact hinv
  case pos =>
    have h0 : connectedCount sh.table = 0 := hinv.1 hs
    have ht2 := connectedCount_loadOrStore sh.table p h0
    unfold Receive.HandlePeerFound
    rw [if_neg (not_not_intro hs)]
    rcases hres : loadOrStore sh.table p PeerState.NotConnected with ⟨seen, loaded, t2⟩
    rw [hres] at ht2
    cases seen
    case NotConnected => exact connectAndAuth_inv _ p e ht2 hstill
    case Connecting => exact ⟨fun _ => ht2, ht2.trans_le (Nat.zero_le 1)⟩
    case Connected => exact connectAndAuth_inv _ p e ht2 hstill
    case FailedConnecting => exact connectAndAuth_inv _ p e ht2 hstill
    case FailedAuthentication => exact ⟨fun _ => ht2, ht2.trans_le (Nat.zero_le 1)⟩

/-- The invariant carried along any serialized run in which every
invocation's connectedness re-check succeeds. -/
theorem foldl_handle_inv (invs : List (Nat × Env)) :
    ∀ s : NodeShared,
    (∀ pe ∈ invs, pe.2.stillConnected = true) →
    ((s.session = SessionState.Roaming → connectedCount s.table = 0) ∧
        connectedCount s.table ≤ 1) →
    (((invs.foldl (fun sh pe => Receive.HandlePeerFound sh pe.1 pe.2) s).session =
          SessionState.Roaming →
        connectedCount
          (invs.foldl (fun sh pe => Receive.HandlePeerFound sh pe.1 pe.2) s).table = 0) ∧
     connectedCount (invs.foldl (fun sh pe => Receive.HandlePeerFound sh pe.1 pe.2) s).table ≤ 1) := by
  induction invs with
  | nil =>
    intro s _ hinv
    exact hinv
  | cons pe rest ih =>
    intro s hall hinv
    rw [List.foldl_cons]
    exact ih _ (fun q hq => hall q (List.mem_cons_of_mem _ hq))
      (handle_inv s pe.1 pe.2 hinv (hall pe (List.mem_cons_self _ _)))

/-- C2 amended: the Roaming-to-Connected session transition in the code is
a session-state read followed by a separate unconditional write, not a
single compare-and-swap, so two interleaved candidates can both pass the
read and both perform the write; when candidate-handling invocations are
serialized and each invocation's post-PAKE connectedness re-check
succeeds, at most one peer ever reaches peer state Connected. -/
theorem c2_amended (invs : List (Nat × Env))
    (h : ∀ pe ∈ invs, pe.2.stillConnected = true) :
    connectedCount (runSeqMulti invs).table ≤ 1 :=
  (foldl_handle_inv invs initShared h ⟨fun _ => rfl, by decide⟩).2

/-- C2 amended witness: two serialized full-success invocations for peers
1 and 2 leave at most one Connected entry. -/
theorem c2_amended_witness :
    (∀ pe ∈ ([(1, fullEnv), (2, fullEnv)] : List (Nat × Env)), pe.2.stillConnected = true) ∧
    connectedCount (runSeqMulti [(1, fullEnv), (2, fullEnv)]).table ≤ 1 :=
  ⟨by decide, c2_amended [(1, fullEnv), (2, fullEnv)] (by decide)⟩

/-- C1 amended witness: two serialized full-success invocations for peer 3
yield one Connect attempt, one PAKE attempt and one table entry. -/
theorem c1_amended_witness :
    countConnectAttempts (runSeq 3 (List.replicate 2 fullEnv)).events = 1 ∧
    countPakeAttempts (runSeq 3 (List.replicate 2 fullEnv)).events = 1 ∧
    entryCount (runSeq 3 (List.replicate 2 fullEnv)).table 3 = 1 :=
  c1_amended 3 1
